import Mathlib

/-
Shallow embedding of the fundamentals-analysis stock screener.

The embedding follows the Python source:
 - `src/data/fetcher.py`   (class DataFetcher: cache, retrying fetch, ratios)
 - `src/screener/criteria.py` (criterion builders, config handling)
 - `src/screener/screener.py` (class StockScreener: per-ticker and batch runs)

Python floats are modelled as rationals (ℚ); `None` as `Option.none`;
dictionaries that the claims inspect key-by-key as association lists.
Wall-clock timestamps are passed explicitly.  Exceptions raised by the
external provider / by a screening step are modelled with explicit outcome
types, mirroring exactly which `try/except` catches them in the source.
-/

set_option autoImplicit false

namespace FundScreen

/-- A cell of a financial-statement `pandas.Series`: a numeric value, a
NaN marker (`pd.isna` is true on it), or a value `float()` cannot convert. -/
inductive Cell where
  | num (q : ℚ)
  | nan
  | nonNumeric
  deriving DecidableEq

/-- One statement column: the line-item index mapped to cell values
(`pd.Series`), as an association list in index order. -/
abbrev Series := List (String × Cell)

/-- The fields the fetcher reads from `stock.info` (an opaque vendor blob;
only these keys are consulted, via `info.get`). -/
structure RawInfo where
  marketCap : Option ℚ
  trailingPE : Option ℚ
  longName : Option String
  deriving DecidableEq

/-- The `financial_data` dictionary built by
`DataFetcher.get_financial_data` (fetcher.py lines 136-145).  The
`cache_hit` flag models presence of the `'_cache_hit'` key: the fetch path
never puts the key in the dictionary (modelled `false`), `_load_cache` sets
it to `True` before returning (modelled `true`).  Two dictionaries are
equal iff the structures are equal. -/
structure FinancialData where
  ticker : String
  company_name : String
  market_cap : Option ℚ
  pe_ratio : Option ℚ
  income_statement : Series
  balance_sheet : Series
  prev_income_statement : Series
  info : RawInfo
  cache_hit : Bool
  deriving DecidableEq

/- ------------------------------------------------------------------ -/
/- Cache (fetcher.py `_cache_path`, `_load_cache`, `_write_cache`)     -/
/- ------------------------------------------------------------------ -/

/-- `_cache_path`: `ticker.upper().replace('/', '_')` (the `.pkl` suffix and
directory are dropped; they are the same for every ticker).  Upper-casing
is per character and the replaced pattern is the single character `/`
(which upper-casing leaves fixed and never produces), so the composition
is one per-character map. -/
def cache_path (ticker : String) : String :=
  String.mk (ticker.data.map fun c => if c.toUpper = '/' then '_' else c.toUpper)

/-- What a cache file on disk unpickles to: a dictionary payload as
written by `_write_cache`, or anything else (unreadable pickle, non-dict
object) which `_load_cache` treats as a miss. -/
inductive CacheContent where
  | dict (fd : FinancialData)
  | corrupt
  deriving DecidableEq

/-- The on-disk cache directory: file name, mtime, content. -/
abbrev CacheStore := List (String × ℚ × CacheContent)

/-- `_load_cache` (fetcher.py lines 52-68): miss if the file does not
exist; miss if `now - mtime > ttl`; unpickle, and if the result is a dict
set its `'_cache_hit'` key to `True` and return it; any failure or a
non-dict is logged and treated as a miss. -/
def load_cache (store : CacheStore) (now ttl : ℚ) (ticker : String) :
    Option FinancialData :=
  match store.find? (fun e => e.1 == cache_path ticker) with
  | none => none
  | some entry =>
    if now - entry.2.1 > ttl then none
    else
      match entry.2.2 with
      | .dict fd => some { fd with cache_hit := true }
      | .corrupt => none

/-- `_write_cache` (fetcher.py lines 70-77): overwrite the file at
`_cache_path ticker` with the pickled dictionary; the file's mtime becomes
the write time. -/
def write_cache (store : CacheStore) (now : ℚ) (ticker : String)
    (data : FinancialData) : CacheStore :=
  (cache_path ticker, now, CacheContent.dict data)
    :: store.filter (fun e => e.1 != cache_path ticker)

/- ------------------------------------------------------------------ -/
/- Fetch with retries (fetcher.py `get_financial_data`)                -/
/- ------------------------------------------------------------------ -/

/-- What one attempt against yfinance yields: the attempt raises somewhere
in `yf.Ticker / .info / .financials / .balance_sheet` (caught by the
`except` at line 151), or it returns the vendor data. `financials` and
`balance_sheet` are the statement DataFrames given as their list of
columns, most recent first; a DataFrame is `.empty` iff it has no
columns. -/
structure ProviderResponse where
  info : RawInfo
  financials : List Series
  balance_sheet : List Series
  deriving DecidableEq

inductive AttemptOutcome where
  | raises
  | returns (r : ProviderResponse)
  deriving DecidableEq

/-- The body of one successful provider call (fetcher.py lines 107-149
inside the `try`): read market cap / trailing P/E / long name from `info`;
if the income statement is empty, `return None`; if the balance sheet is
empty, `return None`; otherwise assemble the `financial_data` dictionary
from the first (and, for the previous period, second) statement columns. -/
def extract_financial_data (ticker : String) (r : ProviderResponse) :
    Option FinancialData :=
  if r.financials.isEmpty then none
  else if r.balance_sheet.isEmpty then none
  else
    some
      { ticker := ticker
        company_name := r.info.longName.getD ticker
        market_cap := r.info.marketCap
        pe_ratio := r.info.trailingPE
        income_statement := r.financials.headD []
        balance_sheet := r.balance_sheet.headD []
        prev_income_statement :=
          match r.financials with
          | _ :: c1 :: _ => c1
          | _ => []
        info := r.info
        cache_hit := false }

/-- The retry loop `for attempt in range(retries)` (fetcher.py lines
105-159).  Besides the result it counts how many times the provider is
called.  A non-raising attempt always leaves the loop with its extracted
result (`return None` on an empty statement, `return financial_data`
otherwise).  A raising attempt sleeps and continues when
`attempt < retries - 1`, else returns `None`. -/
def fetch_go (provider : Nat → AttemptOutcome) (ticker : String)
    (retries : Nat) : List Nat → Option FinancialData × Nat
  | [] => (none, 0)
  | attempt :: rest =>
    match provider attempt with
    | .returns r => (extract_financial_data ticker r, 1)
    | .raises =>
      if attempt < retries - 1 then
        let res := fetch_go provider ticker retries rest
        (res.1, res.2 + 1)
      else (none, 1)

/-- `get_financial_data` (fetcher.py lines 87-159): consult the cache when
`use_cache` and return a hit immediately; otherwise run the retry loop
(the rate-limit sleep is timing-only and not modelled); on success write
the cache when `use_cache`.  Returns (result, number of provider calls,
cache store after the call). -/
def get_financial_data (store : CacheStore) (now ttl : ℚ) (use_cache : Bool)
    (provider : Nat → AttemptOutcome) (ticker : String) (retries : Nat) :
    Option FinancialData × Nat × CacheStore :=
  match (if use_cache then load_cache store now ttl ticker else none) with
  | some cached => (some cached, 0, store)
  | none =>
    match fetch_go provider ticker retries (List.range retries) with
    | (some fd, n) =>
      (some fd, n, if use_cache then write_cache store now ticker fd else store)
    | (none, n) => (none, n, store)

/- ------------------------------------------------------------------ -/
/- Ratio calculation (fetcher.py `calculate_ratios`, `_get_value`)     -/
/- ------------------------------------------------------------------ -/

/-- The alias scan of `_get_value` (fetcher.py lines 244-255): the first
key present in the series index wins; its value is returned after the
NaN check and `float()` conversion, and a NaN or unconvertible value
yields `None` without trying later aliases. -/
def get_value_go (series : Series) : List String → Option ℚ
  | [] => none
  | key :: rest =>
    match series.find? (fun e => e.1 == key) with
    | some e =>
      match e.2 with
      | .num q => some q
      | .nan => none
      | .nonNumeric => none
    | none => get_value_go series rest

/-- `_get_value` (fetcher.py lines 230-255): `None` on an empty series,
else the alias scan. -/
def get_value (series : Series) (possible_keys : List String) : Option ℚ :=
  if series.isEmpty then none
  else get_value_go series possible_keys

/-- The guard pattern repeated in `calculate_ratios`:
`a / b` when both operands are present and the divisor is nonzero,
else `None`. -/
def safe_div (x y : Option ℚ) : Option ℚ :=
  match x, y with
  | some a, some b => if b ≠ 0 then some (a / b) else none
  | _, _ => none

/-- The revenue-growth guard (fetcher.py lines 220-223):
`(cr - pr) / pr` when both revenues are present and the prior one is
nonzero, else `None`. -/
def growth_calc (x y : Option ℚ) : Option ℚ :=
  match x, y with
  | some cr, some pr => if pr ≠ 0 then some ((cr - pr) / pr) else none
  | _, _ => none

/-- The `ratios` dictionary of `calculate_ratios`. -/
structure Ratios where
  current_ratio : Option ℚ
  debt_to_equity : Option ℚ
  roe : Option ℚ
  revenue_growth : Option ℚ
  net_income : Option ℚ
  deriving DecidableEq

/-- `calculate_ratios` (fetcher.py lines 161-228) on a non-`None`
`financial_data` dictionary (on `None` the source returns `{}` and the
screener never reaches it). -/
def calculate_ratios (financial_data : FinancialData) : Ratios :=
  let income := financial_data.income_statement
  let balance := financial_data.balance_sheet
  let prev_income := financial_data.prev_income_statement
  let current_assets :=
    get_value balance ["Total Current Assets", "Current Assets"]
  let current_liabilities :=
    get_value balance ["Total Current Liabilities", "Current Liabilities"]
  let total_debt :=
    get_value balance ["Total Debt", "Total Liabilities Net Minority Interest"]
  let shareholders_equity :=
    get_value balance ["Total Stockholders Equity", "Stockholders Equity"]
  let net_income := get_value income ["Net Income", "Net Income Common Stockholders"]
  let current_revenue := get_value income ["Total Revenue", "Revenue"]
  let prev_revenue := get_value prev_income ["Total Revenue", "Revenue"]
  { current_ratio := safe_div current_assets current_liabilities
    debt_to_equity := safe_div total_debt shareholders_equity
    roe := safe_div net_income shareholders_equity
    revenue_growth := growth_calc current_revenue prev_revenue
    net_income := net_income }

/- ------------------------------------------------------------------ -/
/- Criteria (criteria.py)                                              -/
/- ------------------------------------------------------------------ -/

/-- A value in a criteria configuration mapping: `parse_inline_criteria`
and YAML both produce booleans, numbers or strings. -/
inductive CVal where
  | num (q : ℚ)
  | bool (b : Bool)
  | str (s : String)
  deriving DecidableEq

/-- Python truthiness of a configuration value (used for the
`positive_earnings` flag). -/
def truthy : CVal → Bool
  | .num q => q != 0
  | .bool b => b
  | .str s => s != ""

/-- A numeric view of a threshold for the comparisons `v >= value` /
`v <= value` in the predicates: a bool compares as 0/1 (Python bools are
ints); comparing a float with a string raises `TypeError`, modelled as
`none`. -/
def asNum : CVal → Option ℚ
  | .num q => some q
  | .bool b => some (if b then 1 else 0)
  | .str _ => none

/-- The `evaluation_data` dictionary assembled by `screen_ticker`
(screener.py lines 88-96); every key is present, each value optional. -/
structure EvalData where
  market_cap : Option ℚ
  pe_ratio : Option ℚ
  current_ratio : Option ℚ
  debt_to_equity : Option ℚ
  revenue_growth : Option ℚ
  net_income : Option ℚ
  roe : Option ℚ
  deriving DecidableEq

/-- Outcome of calling one criterion predicate: the returned
`(passed, reason)` pair, or an exception escaping the predicate (caught by
`screen_ticker`'s per-criterion `except`). -/
inductive CritOutcome where
  | res (passed : Bool) (reason : String)
  | exc
  deriving DecidableEq

/-- Abstract rendering of a number interpolated into a failure message.
The source formats with f-string specs (thousands grouping, fixed
decimals, percentages); the exact decimal rendering is abstracted here,
the surrounding message text is kept verbatim. -/
def fmtNum (q : ℚ) : String := toString q.num ++ "/" ++ toString q.den

/-- `min_market_cap` (criteria.py lines 16-34). -/
def min_market_cap (value : CVal) (data : EvalData) : CritOutcome :=
  match data.market_cap with
  | none => .res false "market_cap_missing"
  | some market_cap =>
    match asNum value with
    | none => .exc
    | some v =>
      if market_cap ≥ v then .res true ""
      else .res false
        ("market_cap_below_min (" ++ fmtNum market_cap ++ " < " ++ fmtNum v ++ ")")

/-- `max_pe_ratio` (criteria.py lines 37-59). -/
def max_pe_ratio (value : CVal) (data : EvalData) : CritOutcome :=
  match data.pe_ratio with
  | none => .res false "pe_ratio_missing"
  | some pe_ratio =>
    match asNum value with
    | none => .exc
    | some v =>
      if pe_ratio ≤ v then .res true ""
      else .res false
        ("pe_ratio_above_max (" ++ fmtNum pe_ratio ++ " > " ++ fmtNum v ++ ")")

/-- `min_current_ratio` (criteria.py lines 62-83). -/
def min_current_ratio (value : CVal) (data : EvalData) : CritOutcome :=
  match data.current_ratio with
  | none => .res false "current_ratio_missing"
  | some current_ratio =>
    match asNum value with
    | none => .exc
    | some v =>
      if current_ratio ≥ v then .res true ""
      else .res false
        ("current_ratio_below_min (" ++ fmtNum current_ratio ++ " < " ++ fmtNum v ++ ")")

/-- `max_debt_to_equity` (criteria.py lines 86-107). -/
def max_debt_to_equity (value : CVal) (data : EvalData) : CritOutcome :=
  match data.debt_to_equity with
  | none => .res false "debt_to_equity_missing"
  | some debt_to_equity =>
    match asNum value with
    | none => .exc
    | some v =>
      if debt_to_equity ≤ v then .res true ""
      else .res false
        ("debt_to_equity_above_max (" ++ fmtNum debt_to_equity ++ " > " ++ fmtNum v ++ ")")

/-- `min_revenue_growth` (criteria.py lines 110-131). -/
def min_revenue_growth (value : CVal) (data : EvalData) : CritOutcome :=
  match data.revenue_growth with
  | none => .res false "revenue_growth_missing"
  | some revenue_growth =>
    match asNum value with
    | none => .exc
    | some v =>
      if revenue_growth ≥ v then .res true ""
      else .res false
        ("revenue_growth_below_min (" ++ fmtNum revenue_growth ++ " < " ++ fmtNum v ++ ")")

/-- `positive_earnings` (criteria.py lines 134-152); takes no threshold. -/
def positive_earnings (data : EvalData) : CritOutcome :=
  match data.net_income with
  | none => .res false "net_income_missing"
  | some net_income =>
    if net_income > 0 then .res true ""
    else .res false ("negative_earnings (" ++ fmtNum net_income ++ ")")

/-- `min_roe` (criteria.py lines 155-176). -/
def min_roe (value : CVal) (data : EvalData) : CritOutcome :=
  match data.roe with
  | none => .res false "roe_missing"
  | some roe =>
    match asNum value with
    | none => .exc
    | some v =>
      if roe ≥ v then .res true ""
      else .res false
        ("roe_below_min (" ++ fmtNum roe ++ " < " ++ fmtNum v ++ ")")

/-- An entry of the `criterion_map` dictionary in
`build_criteria_functions` (criteria.py lines 264-272): every builder
takes a threshold, except `positive_earnings` which is a flag gated on
truthiness. -/
inductive Builder where
  | thresholded (f : CVal → EvalData → CritOutcome)
  | flag (f : EvalData → CritOutcome)

/-- The `criterion_map` lookup table. -/
def criterion_map (key : String) : Option Builder :=
  if key = "market_cap_min" then some (.thresholded min_market_cap)
  else if key = "pe_max" then some (.thresholded max_pe_ratio)
  else if key = "current_ratio_min" then some (.thresholded min_current_ratio)
  else if key = "debt_to_equity_max" then some (.thresholded max_debt_to_equity)
  else if key = "revenue_growth_min" then some (.thresholded min_revenue_growth)
  else if key = "positive_earnings" then some (.flag positive_earnings)
  else if key = "roe_min" then some (.thresholded min_roe)
  else none

/-- `build_criteria_functions` (criteria.py lines 251-289): walk the
configuration in insertion order; unknown keys are skipped with a warning;
`positive_earnings` is appended only when its flag value is truthy; other
recognized keys are appended with the builder applied to the configured
value (building a closure never raises, so the `try` there never fires). -/
def build_criteria_functions :
    List (String × CVal) → List (String × (EvalData → CritOutcome))
  | [] => []
  | (key, value) :: rest =>
    match criterion_map key with
    | some (.flag f) =>
      if truthy value then (key, f) :: build_criteria_functions rest
      else build_criteria_functions rest
    | some (.thresholded f) => (key, f value) :: build_criteria_functions rest
    | none => build_criteria_functions rest

/- ------------------------------------------------------------------ -/
/- Screener (screener.py)                                              -/
/- ------------------------------------------------------------------ -/

/-- A value stored in a screening-result dictionary. -/
inductive PyAny where
  | pyStr (s : String)
  | pyNat (n : Nat)
  | pyRat (q : ℚ)
  | pyNone
  | pyList (xs : List String)
  deriving DecidableEq

/-- `None`-preserving injection of an optional number. -/
def ofOpt : Option ℚ → PyAny
  | some q => .pyRat q
  | none => .pyNone

/-- Dictionary lookup on a result record. -/
def getField : List (String × PyAny) → String → Option PyAny
  | [], _ => none
  | (k, v) :: rest, key => if k = key then some v else getField rest key

/-- The criterion loop of `screen_ticker` (screener.py lines 98-111),
accumulating in iteration order: per criterion, count a pass, or append
`"name: reason"` on a returned failure, or append `"name:
evaluation_error"` when the predicate raises.  The source's accumulating
`for` loop is expressed as structural recursion with the same result. -/
def evaluate_criteria :
    List (String × (EvalData → CritOutcome)) → EvalData → Nat × List String
  | [], _ => (0, [])
  | (name, f) :: rest, ed =>
    let head : Nat × List String :=
      match f ed with
      | .res true _ => (1, [])
      | .res false reason => (0, [name ++ ": " ++ reason])
      | .exc => (0, [name ++ ": evaluation_error"])
    let tail := evaluate_criteria rest ed
    (head.1 + tail.1, head.2 ++ tail.2)

/-- The `evaluation_data` dictionary (screener.py lines 88-96). -/
def make_evaluation_data (fd : FinancialData) (ratios : Ratios) : EvalData :=
  { market_cap := fd.market_cap
    pe_ratio := fd.pe_ratio
    current_ratio := ratios.current_ratio
    debt_to_equity := ratios.debt_to_equity
    revenue_growth := ratios.revenue_growth
    net_income := ratios.net_income
    roe := ratios.roe }

/-- `screen_ticker` (screener.py lines 47-136), parametrized by the built
criterion list and by the fetch result for the ticker (the only part of
the fetcher it consults).  The `financial_data is None` branch returns the
fixed failure dictionary of lines 75-82; the success branch computes
ratios, evaluates every criterion, and assembles the result dictionary of
lines 118-132 (`failed_criteria` joined with `", "`, empty string when no
failures). -/
def screen_ticker (fns : List (String × (EvalData → CritOutcome)))
    (financial_data : Option FinancialData) (ticker : String) :
    List (String × PyAny) :=
  match financial_data with
  | none =>
    [("ticker", .pyStr ticker),
     ("company_name", .pyStr ticker),
     ("status", .pyStr "FAIL"),
     ("error", .pyStr "data_fetch_failed"),
     ("passed_criteria", .pyNat 0),
     ("failed_criteria", .pyList ["data_unavailable"])]
  | some fd =>
    let ratios := calculate_ratios fd
    let ec := evaluate_criteria fns (make_evaluation_data fd ratios)
    let passed_count := ec.1
    let failed_criteria := ec.2
    let total_criteria := fns.length
    let status := if passed_count = total_criteria then "PASS" else "FAIL"
    [("ticker", .pyStr ticker),
     ("company_name", .pyStr fd.company_name),
     ("market_cap", ofOpt fd.market_cap),
     ("pe_ratio", ofOpt fd.pe_ratio),
     ("current_ratio", ofOpt ratios.current_ratio),
     ("debt_to_equity", ofOpt ratios.debt_to_equity),
     ("revenue_growth", ofOpt ratios.revenue_growth),
     ("roe", ofOpt ratios.roe),
     ("net_income", ofOpt ratios.net_income),
     ("passed_criteria", .pyNat passed_count),
     ("total_criteria", .pyNat total_criteria),
     ("failed_criteria",
       .pyStr (if failed_criteria.isEmpty then ""
               else String.intercalate ", " failed_criteria)),
     ("status", .pyStr status)]

/-- The fallback dictionary appended by `screen_list` when screening one
ticker raises (screener.py lines 157-164). -/
def error_result (ticker : String) (e : String) : List (String × PyAny) :=
  [("ticker", .pyStr ticker),
   ("company_name", .pyStr ticker),
   ("status", .pyStr "FAIL"),
   ("error", .pyStr e),
   ("passed_criteria", .pyNat 0),
   ("failed_criteria", .pyStr "screening_error")]

/-- One `screen_ticker` call as `screen_list` sees it: the fetch layer may
raise (modelled by `fetch` returning `Except`), and an escaping exception
propagates out of `screen_ticker`. -/
def screen_with_exceptions (fns : List (String × (EvalData → CritOutcome)))
    (fetch : String → Except String (Option FinancialData)) (ticker : String) :
    Except String (List (String × PyAny)) :=
  match fetch ticker with
  | .error e => .error e
  | .ok fd => .ok (screen_ticker fns fd ticker)

/-- The per-ticker body of `screen_list`'s loop (screener.py lines
151-164): `try: screen_ticker … except: append the fallback record`. -/
def screen_one_caught (fns : List (String × (EvalData → CritOutcome)))
    (fetch : String → Except String (Option FinancialData)) (ticker : String) :
    List (String × PyAny) :=
  match screen_with_exceptions fns fetch ticker with
  | .ok result => result
  | .error e => error_result ticker e

/-- `screen_list` (screener.py lines 138-186), up to the final
`pd.DataFrame(results)` conversion: the DataFrame has one row per element
of `results` in order, and the subsequent column completion/reordering
(lines 170-184) adds absent columns and permutes columns only, leaving row
count and row order unchanged; the row list is the modelled output. -/
def screen_list (fns : List (String × (EvalData → CritOutcome)))
    (fetch : String → Except String (Option FinancialData))
    (tickers : List String) : List (List (String × PyAny)) :=
  tickers.map (screen_one_caught fns fetch)

/- ------------------------------------------------------------------ -/
/- Concrete fixtures for witnesses and counterexamples                 -/
/- ------------------------------------------------------------------ -/

def sampleInfo : RawInfo :=
  { marketCap := some 2000000000, trailingPE := some 20, longName := some "Apple Inc." }

/-- A fetch result as `get_financial_data` would build it (in particular
without the cache-hit marker). -/
def sampleData : FinancialData :=
  { ticker := "AAPL"
    company_name := "Apple Inc."
    market_cap := some 2000000000
    pe_ratio := some 20
    income_statement :=
      [("Total Revenue", Cell.num 100000000), ("Net Income", Cell.num 10000000)]
    balance_sheet :=
      [("Total Current Assets", Cell.num 150000000),
       ("Total Current Liabilities", Cell.num 100000000)]
    prev_income_statement := [("Total Revenue", Cell.num 90000000)]
    info := sampleInfo
    cache_hit := false }

/-- A provider response whose income-statement DataFrame is empty. -/
def emptyIncomeResponse : ProviderResponse :=
  { info := sampleInfo
    financials := []
    balance_sheet := [[("Total Current Assets", Cell.num 5)]] }

/-- A provider response from which extraction succeeds. -/
def goodResponse : ProviderResponse :=
  { info := sampleInfo
    financials :=
      [[("Total Revenue", Cell.num 100), ("Net Income", Cell.num 10)],
       [("Total Revenue", Cell.num 90)]]
    balance_sheet :=
      [[("Total Current Assets", Cell.num 150),
        ("Total Current Liabilities", Cell.num 100)]] }

/-- A provider that returns an empty income statement on the first attempt
and good data on every later attempt. -/
def flakyProvider : Nat → AttemptOutcome := fun a =>
  if a = 0 then .returns emptyIncomeResponse else .returns goodResponse

/- ------------------------------------------------------------------ -/
/- Cache helper lemma                                                  -/
/- ------------------------------------------------------------------ -/

/-- Reading back a freshly written cache entry: found under any ticker
with the same normalized key, gated only by the TTL check, and returned
with the cache-hit marker set. -/
theorem load_cache_write_cache (store : CacheStore) (tw tr ttl : ℚ)
    (t1 t2 : String) (fd : FinancialData) (hkey : cache_path t1 = cache_path t2) :
    load_cache (write_cache store tw t1 fd) tr ttl t2 =
      if tr - tw > ttl then none else some { fd with cache_hit := true } := by
  simp [load_cache, write_cache, List.find?, hkey]

/-- Claim C2: put followed immediately by get returns data equal to the
original payload while within the TTL.  Counterexample: the read-back
dictionary carries the added `'_cache_hit': True` entry, so it is not
equal to the payload that was written. -/
theorem C2_counterexample :
    load_cache (write_cache [] 0 "AAPL" sampleData) 0 86400 "AAPL"
        = some { sampleData with cache_hit := true } ∧
      load_cache (write_cache [] 0 "AAPL" sampleData) 0 86400 "AAPL"
        ≠ some sampleData := by
  have h := load_cache_write_cache [] 0 0 86400 "AAPL" "AAPL" sampleData rfl
  rw [if_neg (by norm_num)] at h
  refine ⟨h, ?_⟩
  rw [h]
  intro hc
  have hflag := congrArg FinancialData.cache_hit (Option.some.inj hc)
  simp [sampleData] at hflag

/-- Claim C2 (amended): `put(ticker, data)` followed by `get(ticker)`
returns the original payload with the cache-hit marker added — equal to
the original on every other field — for as long as the entry's age is at
most the TTL, and returns absent once more than the TTL has elapsed since
the write, regardless of the prior store contents. -/
theorem C2_theorem (store : CacheStore) (tw tr ttl : ℚ) (ticker : String)
    (fd : FinancialData) :
    (tr - tw ≤ ttl →
      load_cache (write_cache store tw ticker fd) tr ttl ticker
        = some { fd with cache_hit := true }) ∧
    (ttl < tr - tw →
      load_cache (write_cache store tw ticker fd) tr ttl ticker = none) := by
  constructor
  · intro h
    rw [load_cache_write_cache store tw tr ttl ticker ticker fd rfl,
      if_neg (not_lt.mpr h)]
  · intro h
    rw [load_cache_write_cache store tw tr ttl ticker ticker fd rfl, if_pos h]

theorem C2_witness :
    load_cache (write_cache [] 0 "MSFT" sampleData) 10 3600 "MSFT"
        = some { sampleData with cache_hit := true } ∧
      load_cache (write_cache [] 0 "MSFT" sampleData) 4000 3600 "MSFT" = none :=
  ⟨(C2_theorem [] 0 10 3600 "MSFT" sampleData).1 (by norm_num),
   (C2_theorem [] 0 4000 3600 "MSFT" sampleData).2 (by norm_num)⟩

/-- Claim C10: the cache key is the ticker upper-cased with `/` replaced
by `_`; tickers equal after this normalization address the same entry, so
a put under one is observed by a fresh get under the other (case and
`/`-vs-`_` variants collide on one entry). -/
theorem C10_theorem :
    cache_path "brk/b" = "BRK_B" ∧
    cache_path "BRK_B" = "BRK_B" ∧
    cache_path "aapl" = cache_path "AAPL" ∧
    ∀ (t1 t2 : String) (store : CacheStore) (tw tr ttl : ℚ) (fd : FinancialData),
      cache_path t1 = cache_path t2 → tr - tw ≤ ttl →
      load_cache (write_cache store tw t1 fd) tr ttl t2
        = some { fd with cache_hit := true } := by
  refine ⟨by decide, by decide, by decide, ?_⟩
  intro t1 t2 store tw tr ttl fd hkey h
  rw [load_cache_write_cache store tw tr ttl t1 t2 fd hkey, if_neg (not_lt.mpr h)]

theorem C10_witness :
    load_cache (write_cache [] 0 "brk/b" sampleData) 5 100 "BRK_B"
      = some { sampleData with cache_hit := true } :=
  C10_theorem.2.2.2 "brk/b" "BRK_B" [] 0 5 100 sampleData (by decide) (by norm_num)

/- ------------------------------------------------------------------ -/
/- Fetch retry-loop lemmas                                             -/
/- ------------------------------------------------------------------ -/

/-- A provider that raises on every attempt. -/
def failProvider : Nat → AttemptOutcome := fun _ => .raises

/-- When every attempt raises, the loop over attempts `s, …, s+n-1` (the
tail of `range retries`) makes exactly `n` further provider calls and
yields no data. -/
theorem fetch_go_all_raises (provider : Nat → AttemptOutcome) (ticker : String)
    (retries : Nat) (hp : ∀ a, provider a = .raises) :
    ∀ n s, s + n = retries →
      fetch_go provider ticker retries (List.range' s n) = (none, n) := by
  intro n
  induction n with
  | zero => intro s _; simp [fetch_go]
  | succ n ih =>
    intro s h
    rw [List.range'_succ]
    simp only [fetch_go, hp s]
    by_cases hlt : s < retries - 1
    · rw [if_pos hlt, ih (s + 1) (by omega)]
    · rw [if_neg hlt]
      have hn : n = 0 := by omega
      subst hn
      rfl

/-- When attempts `0, …, i-1` raise and attempt `i` returns a response
from which extraction yields `None`, the loop stops at attempt `i` having
made `i - s + 1` further calls, returning no data. -/
theorem fetch_go_stops_at (provider : Nat → AttemptOutcome) (ticker : String)
    (retries i : Nat) (r : ProviderResponse)
    (hearly : ∀ j, j < i → provider j = .raises)
    (hi : provider i = .returns r)
    (hempty : extract_financial_data ticker r = none) :
    ∀ n s, s + n = retries → s ≤ i → i < retries →
      fetch_go provider ticker retries (List.range' s n) = (none, i - s + 1) := by
  intro n
  induction n with
  | zero => intro s h hs hilt; omega
  | succ n ih =>
    intro s h hs hilt
    rw [List.range'_succ]
    by_cases hsi : s = i
    · subst hsi
      simp only [fetch_go, hi, hempty]
      simp
    · have hslt : s < i := lt_of_le_of_ne hs hsi
      simp only [fetch_go, hearly s hslt]
      have hcond : s < retries - 1 := by omega
      rw [if_pos hcond, ih (s + 1) (by omega) (by omega) hilt]
      have harith : i - (s + 1) + 1 + 1 = i - s + 1 := by omega
      simp [harith]

/-- Claim C8: if every attempt against the provider raises and the cache
does not answer, `get_financial_data` calls the provider exactly `retries`
times, never more, and returns absent (leaving the store unchanged). -/
theorem C8_theorem (store : CacheStore) (now ttl : ℚ) (use_cache : Bool)
    (provider : Nat → AttemptOutcome) (ticker : String) (retries : Nat)
    (hp : ∀ a, provider a = .raises)
    (hmiss : load_cache store now ttl ticker = none) :
    get_financial_data store now ttl use_cache provider ticker retries
      = (none, retries, store) := by
  have hloop : fetch_go provider ticker retries (List.range retries)
      = (none, retries) := by
    rw [List.range_eq_range']
    exact fetch_go_all_raises provider ticker retries hp retries 0 (by omega)
  unfold get_financial_data
  cases use_cache <;> simp [hmiss, hloop]

theorem C8_witness :
    get_financial_data [] 0 86400 true failProvider "NOPE" 3 = (none, 3, []) :=
  C8_theorem [] 0 86400 true failProvider "NOPE" 3 (fun _ => rfl) rfl

/-- Claim C1 counterexample: with 3 retries, the first attempt obtains a
response whose income-statement dataset is empty, and every later attempt
would succeed; the claim demands a further attempt be made, but the fetch
returns absent after exactly one provider call. -/
theorem C1_counterexample :
    get_financial_data [] 0 86400 false flakyProvider "XYZ" 3 = (none, 1, []) ∧
      (get_financial_data [] 0 86400 false
        (fun _ => .returns goodResponse) "XYZ" 3).1.isSome = true := by
  constructor
  · rfl
  · rfl

/-- Claim C1 (amended): when an attempt obtains a response whose
income-statement or balance-sheet dataset is empty, `get_financial_data`
logs and returns absent immediately from that attempt: the empty response
is not treated as a retryable failure, no further attempt is made, and the
provider has been called exactly once per raising attempt before it plus
once for this attempt. -/
theorem C1_theorem (store : CacheStore) (now ttl : ℚ) (use_cache : Bool)
    (provider : Nat → AttemptOutcome) (ticker : String) (retries i : Nat)
    (r : ProviderResponse)
    (hmiss : load_cache store now ttl ticker = none)
    (hearly : ∀ j, j < i → provider j = .raises)
    (hi : provider i = .returns r)
    (hempty : r.financials.isEmpty = true ∨ r.balance_sheet.isEmpty = true)
    (hilt : i < retries) :
    get_financial_data store now ttl use_cache provider ticker retries
      = (none, i + 1, store) := by
  have hex : extract_financial_data ticker r = none := by
    unfold extract_financial_data
    rcases hempty with h | h <;> simp [h]
  have hloop :=
    fetch_go_stops_at provider ticker retries i r hearly hi hex retries 0
      (by omega) (by omega) hilt
  unfold get_financial_data
  cases use_cache <;> simp [hmiss, List.range_eq_range', hloop]

theorem C1_witness :
    get_financial_data [] 0 86400 true flakyProvider "XYZ" 3 = (none, 1, []) :=
  C1_theorem [] 0 86400 true flakyProvider "XYZ" 3 0 emptyIncomeResponse rfl
    (fun j hj => absurd hj (by omega)) rfl (Or.inl rfl) (by omega)

/- ------------------------------------------------------------------ -/
/- Criteria / screener claim support                                   -/
/- ------------------------------------------------------------------ -/

/-- Whether a criterion call counts as a pass in `screen_ticker`'s loop
(a raised exception does not). -/
def critPassed : CritOutcome → Bool
  | .res b _ => b
  | .exc => false

/-- An evaluation record with every field present. -/
def dataAllPresent : EvalData :=
  { market_cap := some 10, pe_ratio := some 10, current_ratio := some 10
    debt_to_equity := some 10, revenue_growth := some 10, net_income := some 10
    roe := some 10 }

/-- An evaluation record with every field absent. -/
def dataAllMissing : EvalData :=
  { market_cap := none, pe_ratio := none, current_ratio := none
    debt_to_equity := none, revenue_growth := none, net_income := none
    roe := none }

/-- The criterion loop counts at most one pass per criterion. -/
theorem evaluate_criteria_fst_le
    (fns : List (String × (EvalData → CritOutcome))) (ed : EvalData) :
    (evaluate_criteria fns ed).1 ≤ fns.length := by
  induction fns with
  | nil => simp [evaluate_criteria]
  | cons c rest ih =>
    obtain ⟨name, f⟩ := c
    cases hf : f ed with
    | res passed reason =>
      cases passed <;> simp [evaluate_criteria, hf] <;> omega
    | exc => simp [evaluate_criteria, hf]; omega

/-- Claim C3: for a constructed criteria set of size N, the evaluation of
a data record returns `passed_count ≤ N`; the result's status is `PASS`
iff `passed_count = N`; with zero constructed criteria the status is
always `PASS`. -/
theorem C3_theorem (config : List (String × CVal)) (fd : FinancialData)
    (ticker : String) :
    (evaluate_criteria (build_criteria_functions config)
        (make_evaluation_data fd (calculate_ratios fd))).1
      ≤ (build_criteria_functions config).length ∧
    (getField (screen_ticker (build_criteria_functions config) (some fd) ticker)
        "status" = some (.pyStr "PASS")
      ↔ (evaluate_criteria (build_criteria_functions config)
            (make_evaluation_data fd (calculate_ratios fd))).1
          = (build_criteria_functions config).length) ∧
    (build_criteria_functions config = [] →
      getField (screen_ticker (build_criteria_functions config) (some fd) ticker)
        "status" = some (.pyStr "PASS")) := by
  have hstat : getField
      (screen_ticker (build_criteria_functions config) (some fd) ticker) "status"
      = some (.pyStr
          (if (evaluate_criteria (build_criteria_functions config)
                (make_evaluation_data fd (calculate_ratios fd))).1
              = (build_criteria_functions config).length
           then "PASS" else "FAIL")) := rfl
  refine ⟨evaluate_criteria_fst_le _ _, ?_, ?_⟩
  · rw [hstat]
    by_cases h : (evaluate_criteria (build_criteria_functions config)
        (make_evaluation_data fd (calculate_ratios fd))).1
        = (build_criteria_functions config).length
    · simp [h]
    · simp [h, show ("FAIL" : String) ≠ "PASS" from by decide]
  · intro h
    rw [h]
    rfl

theorem C3_witness :
    getField (screen_ticker (build_criteria_functions []) (some sampleData) "AAPL")
      "status" = some (.pyStr "PASS") :=
  (C3_theorem [] sampleData "AAPL").2.2 rfl

/-- Claim C4: each min-style predicate passes iff the looked-up value `v`
satisfies `v ≥ t`, each max-style predicate iff `v ≤ t`, and an absent
field fails with the corresponding `<field>_missing` reason, regardless of
the threshold. -/
theorem C4_theorem (t : ℚ) (d : EvalData) :
    ((∀ v, d.market_cap = some v →
        (critPassed (min_market_cap (.num t) d) = true ↔ t ≤ v)) ∧
      (d.market_cap = none →
        min_market_cap (.num t) d = .res false "market_cap_missing")) ∧
    ((∀ v, d.pe_ratio = some v →
        (critPassed (max_pe_ratio (.num t) d) = true ↔ v ≤ t)) ∧
      (d.pe_ratio = none →
        max_pe_ratio (.num t) d = .res false "pe_ratio_missing")) ∧
    ((∀ v, d.current_ratio = some v →
        (critPassed (min_current_ratio (.num t) d) = true ↔ t ≤ v)) ∧
      (d.current_ratio = none →
        min_current_ratio (.num t) d = .res false "current_ratio_missing")) ∧
    ((∀ v, d.debt_to_equity = some v →
        (critPassed (max_debt_to_equity (.num t) d) = true ↔ v ≤ t)) ∧
      (d.debt_to_equity = none →
        max_debt_to_equity (.num t) d = .res false "debt_to_equity_missing")) ∧
    ((∀ v, d.revenue_growth = some v →
        (critPassed (min_revenue_growth (.num t) d) = true ↔ t ≤ v)) ∧
      (d.revenue_growth = none →
        min_revenue_growth (.num t) d = .res false "revenue_growth_missing")) ∧
    ((∀ v, d.roe = some v →
        (critPassed (min_roe (.num t) d) = true ↔ t ≤ v)) ∧
      (d.roe = none → min_roe (.num t) d = .res false "roe_missing")) := by
  refine ⟨⟨?_, ?_⟩, ⟨?_, ?_⟩, ⟨?_, ?_⟩, ⟨?_, ?_⟩, ⟨?_, ?_⟩, ⟨?_, ?_⟩⟩
  · intro v hv
    by_cases hc : t ≤ v <;>
      simp [min_market_cap, asNum, critPassed, hv, hc, ge_iff_le]
  · intro h; simp [min_market_cap, h]
  · intro v hv
    by_cases hc : v ≤ t <;> simp [max_pe_ratio, asNum, critPassed, hv, hc]
  · intro h; simp [max_pe_ratio, h]
  · intro v hv
    by_cases hc : t ≤ v <;>
      simp [min_current_ratio, asNum, critPassed, hv, hc, ge_iff_le]
  · intro h; simp [min_current_ratio, h]
  · intro v hv
    by_cases hc : v ≤ t <;> simp [max_debt_to_equity, asNum, critPassed, hv, hc]
  · intro h; simp [max_debt_to_equity, h]
  · intro v hv
    by_cases hc : t ≤ v <;>
      simp [min_revenue_growth, asNum, critPassed, hv, hc, ge_iff_le]
  · intro h; simp [min_revenue_growth, h]
  · intro v hv
    by_cases hc : t ≤ v <;> simp [min_roe, asNum, critPassed, hv, hc, ge_iff_le]
  · intro h; simp [min_roe, h]

theorem C4_witness :
    critPassed (min_market_cap (.num 5) dataAllPresent) = true ∧
    min_market_cap (.num 5) dataAllMissing = .res false "market_cap_missing" ∧
    critPassed (max_pe_ratio (.num 25) dataAllPresent) = true ∧
    max_pe_ratio (.num 25) dataAllMissing = .res false "pe_ratio_missing" ∧
    critPassed (min_current_ratio (.num 5) dataAllPresent) = true ∧
    min_current_ratio (.num 5) dataAllMissing = .res false "current_ratio_missing" ∧
    critPassed (max_debt_to_equity (.num 25) dataAllPresent) = true ∧
    max_debt_to_equity (.num 25) dataAllMissing = .res false "debt_to_equity_missing" ∧
    critPassed (min_revenue_growth (.num 5) dataAllPresent) = true ∧
    min_revenue_growth (.num 5) dataAllMissing = .res false "revenue_growth_missing" ∧
    critPassed (min_roe (.num 5) dataAllPresent) = true ∧
    min_roe (.num 5) dataAllMissing = .res false "roe_missing" :=
  ⟨((C4_theorem 5 dataAllPresent).1.1 10 rfl).mpr (by norm_num),
   (C4_theorem 5 dataAllMissing).1.2 rfl,
   ((C4_theorem 25 dataAllPresent).2.1.1 10 rfl).mpr (by norm_num),
   (C4_theorem 25 dataAllMissing).2.1.2 rfl,
   ((C4_theorem 5 dataAllPresent).2.2.1.1 10 rfl).mpr (by norm_num),
   (C4_theorem 5 dataAllMissing).2.2.1.2 rfl,
   ((C4_theorem 25 dataAllPresent).2.2.2.1.1 10 rfl).mpr (by norm_num),
   (C4_theorem 25 dataAllMissing).2.2.2.1.2 rfl,
   ((C4_theorem 5 dataAllPresent).2.2.2.2.1.1 10 rfl).mpr (by norm_num),
   (C4_theorem 5 dataAllMissing).2.2.2.2.1.2 rfl,
   ((C4_theorem 5 dataAllPresent).2.2.2.2.2.1 10 rfl).mpr (by norm_num),
   (C4_theorem 5 dataAllMissing).2.2.2.2.2.2 rfl⟩

/-- Claim C5: when the fetch returns absent, `screen_ticker` returns
(without raising — the embedding is total) a result with status `FAIL`,
passed count 0, the single failure marker `data_unavailable`, and the
company name defaulted to the ticker string. -/
theorem C5_theorem (fns : List (String × (EvalData → CritOutcome)))
    (ticker : String) :
    getField (screen_ticker fns none ticker) "status" = some (.pyStr "FAIL") ∧
    getField (screen_ticker fns none ticker) "passed_criteria"
      = some (.pyNat 0) ∧
    getField (screen_ticker fns none ticker) "failed_criteria"
      = some (.pyList ["data_unavailable"]) ∧
    getField (screen_ticker fns none ticker) "company_name"
      = some (.pyStr ticker) :=
  ⟨rfl, rfl, rfl, rfl⟩

/-- Claim C6 counterexample: the fetch-failure record returned by
`screen_ticker` lacks the stable fields `market_cap` and `total_criteria`
entirely, and its `failed_criteria` is a list, not a delimiter-joined
string — so not every ScreeningResult has the claimed flat shape. -/
theorem C6_counterexample :
    getField (screen_ticker [] none "AAPL") "market_cap" = none ∧
    getField (screen_ticker [] none "AAPL") "total_criteria" = none ∧
    getField (screen_ticker [] none "AAPL") "failed_criteria"
      = some (.pyList ["data_unavailable"]) :=
  ⟨rfl, rfl, rfl⟩

/-- Claim C6 (amended): on the success path every ScreeningResult is a
flat record with exactly the stable field names (`failed_criteria` as one
delimiter-joined string); on the fetch-failure path the record carries
only ticker, company_name, status, error, passed_criteria and
failed_criteria, the latter as a list of markers rather than a joined
string. -/
theorem C6_theorem (fns : List (String × (EvalData → CritOutcome)))
    (fd : FinancialData) (ticker : String) :
    (screen_ticker fns (some fd) ticker).map Prod.fst =
      ["ticker", "company_name", "market_cap", "pe_ratio", "current_ratio",
       "debt_to_equity", "revenue_growth", "roe", "net_income",
       "passed_criteria", "total_criteria", "failed_criteria", "status"] ∧
    (∃ s, getField (screen_ticker fns (some fd) ticker) "failed_criteria"
        = some (.pyStr s)) ∧
    (screen_ticker fns none ticker).map Prod.fst =
      ["ticker", "company_name", "status", "error", "passed_criteria",
       "failed_criteria"] ∧
    (∃ xs, getField (screen_ticker fns none ticker) "failed_criteria"
        = some (.pyList xs)) :=
  ⟨rfl, ⟨_, rfl⟩, rfl, ⟨_, rfl⟩⟩

/-- A fetch that raises for MSFT and succeeds for every other ticker. -/
def fetchB : String → Except String (Option FinancialData) := fun t =>
  if t = "MSFT" then .error "boom" else .ok (some sampleData)

/-- Claim C7: `screen_list` returns exactly one result per input ticker in
input order (duplicates produce duplicate independent results), and an
exception while screening one ticker is converted into that ticker's FAIL
fallback record without aborting the batch. -/
theorem C7_theorem (fns : List (String × (EvalData → CritOutcome)))
    (fetch : String → Except String (Option FinancialData))
    (tickers : List String) :
    (screen_list fns fetch tickers).length = tickers.length ∧
    (∀ i : Nat, (screen_list fns fetch tickers)[i]?
        = (tickers[i]?).map (screen_one_caught fns fetch)) ∧
    (∀ t e, fetch t = .error e →
      screen_one_caught fns fetch t = error_result t e) ∧
    (∀ t fd, fetch t = .ok fd →
      screen_one_caught fns fetch t = screen_ticker fns fd t) := by
  refine ⟨?_, ?_, ?_, ?_⟩
  · simp [screen_list]
  · intro i; simp [screen_list]
  · intro t e h; simp [screen_one_caught, screen_with_exceptions, h]
  · intro t fd h; simp [screen_one_caught, screen_with_exceptions, h]

theorem C7_witness :
    (screen_list [] fetchB ["AAPL", "MSFT", "GOOG"]).length = 3 ∧
    screen_one_caught [] fetchB "MSFT" = error_result "MSFT" "boom" ∧
    screen_one_caught [] fetchB "AAPL" = screen_ticker [] (some sampleData) "AAPL" :=
  ⟨(C7_theorem [] fetchB ["AAPL", "MSFT", "GOOG"]).1,
   (C7_theorem [] fetchB ["AAPL", "MSFT", "GOOG"]).2.2.1 "MSFT" "boom" rfl,
   (C7_theorem [] fetchB ["AAPL", "MSFT", "GOOG"]).2.2.2 "AAPL" (some sampleData) rfl⟩

/- ------------------------------------------------------------------ -/
/- Ratio-calculation lemmas                                            -/
/- ------------------------------------------------------------------ -/

theorem safe_div_eq_none_iff (x y : Option ℚ) :
    safe_div x y = none ↔ x = none ∨ y = none ∨ y = some 0 := by
  cases x with
  | none => simp [safe_div]
  | some a =>
    cases y with
    | none => simp [safe_div]
    | some b => by_cases hb : b = 0 <;> simp [safe_div, hb]

theorem safe_div_some (x y : Option ℚ) (a b : ℚ) (hx : x = some a)
    (hy : y = some b) (hb : b ≠ 0) : safe_div x y = some (a / b) := by
  subst hx hy
  simp [safe_div, hb]

theorem growth_calc_eq_none_iff (x y : Option ℚ) :
    growth_calc x y = none ↔ x = none ∨ y = none ∨ y = some 0 := by
  cases x with
  | none => simp [growth_calc]
  | some c =>
    cases y with
    | none => simp [growth_calc]
    | some p => by_cases hp : p = 0 <;> simp [growth_calc, hp]

theorem growth_calc_some (x y : Option ℚ) (c p : ℚ) (hx : x = some c)
    (hy : y = some p) (hp : p ≠ 0) :
    growth_calc x y = some ((c - p) / p) := by
  subst hx hy
  simp [growth_calc, hp]

/-- A value produced by the alias scan always comes from a numeric cell
found under one of the aliases: NaN and unconvertible cells never yield a
value. -/
theorem get_value_go_sound (series : Series) :
    ∀ (keys : List String) (q : ℚ), get_value_go series keys = some q →
      ∃ k, k ∈ keys ∧ ∃ e, List.find? (fun x => x.1 == k) series = some e ∧
        e.2 = Cell.num q := by
  intro keys
  induction keys with
  | nil => intro q h; simp [get_value_go] at h
  | cons k rest ih =>
    intro q h
    simp only [get_value_go] at h
    cases hf : List.find? (fun x => x.1 == k) series with
    | none =>
      rw [hf] at h
      obtain ⟨k', hk', e, he, hv⟩ := ih q h
      exact ⟨k', List.mem_cons_of_mem _ hk', e, he, hv⟩
    | some e =>
      rw [hf] at h
      obtain ⟨key, cell⟩ := e
      cases cell with
      | num q' =>
        have hq : q' = q := Option.some.inj h
        exact ⟨k, List.mem_cons_self _ _, ⟨key, Cell.num q'⟩, hf, by rw [hq]⟩
      | nan => exact Option.noConfusion h
      | nonNumeric => exact Option.noConfusion h

theorem get_value_sound (series : Series) (keys : List String) (q : ℚ)
    (h : get_value series keys = some q) :
    ∃ k, k ∈ keys ∧ ∃ e, List.find? (fun x => x.1 == k) series = some e ∧
      e.2 = Cell.num q := by
  unfold get_value at h
  by_cases he : series.isEmpty
  · rw [if_pos he] at h
    exact Option.noConfusion h
  · rw [if_neg he] at h
    exact get_value_go_sound series keys q h

/-- Claim C9: the ratio derivation is total (the embedding is a total
function); each ratio is absent — never zero — exactly when a required
operand is absent or the divisor is zero, where the operand lookup itself
yields absent for missing, NaN or non-numeric cells (last conjunct:
a looked-up value only ever comes from a numeric cell under an alias);
otherwise each ratio equals its stated formula. -/
theorem C9_theorem (fd : FinancialData) :
    ((calculate_ratios fd).current_ratio = none ↔
      get_value fd.balance_sheet ["Total Current Assets", "Current Assets"]
          = none ∨
        get_value fd.balance_sheet
          ["Total Current Liabilities", "Current Liabilities"] = none ∨
        get_value fd.balance_sheet
          ["Total Current Liabilities", "Current Liabilities"] = some 0) ∧
    (∀ a l,
      get_value fd.balance_sheet ["Total Current Assets", "Current Assets"]
          = some a →
      get_value fd.balance_sheet
          ["Total Current Liabilities", "Current Liabilities"] = some l →
      l ≠ 0 → (calculate_ratios fd).current_ratio = some (a / l)) ∧
    ((calculate_ratios fd).debt_to_equity = none ↔
      get_value fd.balance_sheet
          ["Total Debt", "Total Liabilities Net Minority Interest"] = none ∨
        get_value fd.balance_sheet
          ["Total Stockholders Equity", "Stockholders Equity"] = none ∨
        get_value fd.balance_sheet
          ["Total Stockholders Equity", "Stockholders Equity"] = some 0) ∧
    (∀ d e,
      get_value fd.balance_sheet
          ["Total Debt", "Total Liabilities Net Minority Interest"] = some d →
      get_value fd.balance_sheet
          ["Total Stockholders Equity", "Stockholders Equity"] = some e →
      e ≠ 0 → (calculate_ratios fd).debt_to_equity = some (d / e)) ∧
    ((calculate_ratios fd).roe = none ↔
      get_value fd.income_statement
          ["Net Income", "Net Income Common Stockholders"] = none ∨
        get_value fd.balance_sheet
          ["Total Stockholders Equity", "Stockholders Equity"] = none ∨
        get_value fd.balance_sheet
          ["Total Stockholders Equity", "Stockholders Equity"] = some 0) ∧
    (∀ n e,
      get_value fd.income_statement
          ["Net Income", "Net Income Common Stockholders"] = some n →
      get_value fd.balance_sheet
          ["Total Stockholders Equity", "Stockholders Equity"] = some e →
      e ≠ 0 → (calculate_ratios fd).roe = some (n / e)) ∧
    ((calculate_ratios fd).revenue_growth = none ↔
      get_value fd.income_statement ["Total Revenue", "Revenue"] = none ∨
        get_value fd.prev_income_statement ["Total Revenue", "Revenue"] = none ∨
        get_value fd.prev_income_statement ["Total Revenue", "Revenue"]
          = some 0) ∧
    (∀ c p, get_value fd.income_statement ["Total Revenue", "Revenue"] = some c →
      get_value fd.prev_income_statement ["Total Revenue", "Revenue"] = some p →
      p ≠ 0 → (calculate_ratios fd).revenue_growth = some ((c - p) / p)) ∧
    ((calculate_ratios fd).net_income
        = get_value fd.income_statement
            ["Net Income", "Net Income Common Stockholders"]) ∧
    (∀ (series : Series) (keys : List String) (q : ℚ),
      get_value series keys = some q →
      ∃ k, k ∈ keys ∧ ∃ e, List.find? (fun x => x.1 == k) series = some e ∧
        e.2 = Cell.num q) :=
  ⟨safe_div_eq_none_iff _ _,
   fun a l hx hy hl => safe_div_some _ _ a l hx hy hl,
   safe_div_eq_none_iff _ _,
   fun d e hx hy he => safe_div_some _ _ d e hx hy he,
   safe_div_eq_none_iff _ _,
   fun n e hx hy he => safe_div_some _ _ n e hx hy he,
   growth_calc_eq_none_iff _ _,
   fun c p hx hy hp => growth_calc_some _ _ c p hx hy hp,
   rfl,
   fun series keys q h => get_value_sound series keys q h⟩

theorem C9_witness :
    (calculate_ratios sampleData).current_ratio
        = some (150000000 / 100000000) ∧
      (calculate_ratios sampleData).revenue_growth
        = some ((100000000 - 90000000) / 90000000) :=
  ⟨(C9_theorem sampleData).2.1 150000000 100000000 rfl rfl (by norm_num),
   (C9_theorem sampleData).2.2.2.2.2.2.2.1 100000000 90000000 rfl rfl
     (by norm_num)⟩

end FundScreen
